import Mathlib

/-!
Shallow embedding of `ppt.py` (decodephi/PowerPoint-AI-generator): a Streamlit
app that turns a topic string into a .pptx deck via the Gemini text API and the
Pexels photo API.  External effects (API responses, HTTP results, clock reads)
are passed in as explicit values; every function below mirrors the control flow
of the Python source it names.
-/

set_option autoImplicit false

namespace PPTGen

/-! String primitives mirroring the Python operations used in `ppt.py`:
substring membership (`in`), `str.lower`, `str.split`, `str.strip`,
`str.startswith`.  All operate on the underlying character lists so that they
evaluate in the kernel. -/

/-- Tests whether the pattern `p` occurs at the head of `s`. -/
def charsStartWith : List Char → List Char → Bool
  | _, [] => true
  | [], _ :: _ => false
  | c :: cs, p :: ps => c == p && charsStartWith cs ps

/-- Tests whether the pattern `p` occurs anywhere inside `s` (Python `p in s`). -/
def charsContain (p : List Char) : List Char → Bool
  | [] => charsStartWith [] p
  | c :: cs => charsStartWith (c :: cs) p || charsContain p cs

/-- Python `pat in s` on strings. -/
def strContains (s pat : String) : Bool := charsContain pat.data s.data

/-- Python `s.startswith(pat)`. -/
def strStartsWith (s pat : String) : Bool := charsStartWith s.data pat.data

/-- Python `s.lower()` (ASCII letters, as used on the error messages here). -/
def strToLower (s : String) : String := ⟨s.data.map Char.toLower⟩

/-- Splits `l` at every leftmost, non-overlapping occurrence of the non-empty
pattern `p :: ps`, keeping empty chunks — the semantics of Python
`str.split(sep)` with a non-empty separator. -/
def chunksSplit (p : Char) (ps : List Char) : List Char → List (List Char)
  | [] => [[]]
  | c :: cs =>
    if charsStartWith (c :: cs) (p :: ps) then
      [] :: chunksSplit p ps (cs.drop ps.length)
    else
      match chunksSplit p ps cs with
      | [] => [[c]]
      | chunk :: rest => (c :: chunk) :: rest
termination_by l => l.length
decreasing_by
  all_goals simp [List.length_drop]
  omega

/-- Python `s.split(pat)` for a non-empty separator (`ppt.py` only splits on
the literal fences, which are non-empty; the empty-separator case, which Python
rejects, is mapped to the identity split). -/
def pySplit (s pat : String) : List String :=
  match pat.data with
  | [] => [s]
  | p :: ps => (chunksSplit p ps s.data).map (fun cs => ⟨cs⟩)

/-- Whitespace recognised by Python `str.strip()`. -/
def isSpaceChar (c : Char) : Bool :=
  c == ' ' || c == '\t' || c == '\n' || c == '\r' || c == '\x0b' || c == '\x0c'

/-- Python `s.strip()`. -/
def pyStrip (s : String) : String :=
  ⟨((s.data.dropWhile isSpaceChar).reverse.dropWhile isSpaceChar).reverse⟩

/-! Rate limiting and retries (`PPTGenerator._wait_for_rate_limit`,
`PPTGenerator._retry_api_call`, ppt.py lines 30–73). -/

/-- Constant `self.min_delay = 30` set in `PPTGenerator.__init__` (line 27).
Time is modelled by rationals standing for the seconds of `time.time()`. -/
def min_delay : ℚ := 30

/-- Embedding of `PPTGenerator._wait_for_rate_limit` (lines 30–40).  Input is
the stored `last_api_call` and the current clock; output is the duration passed
to `time.sleep` (0 when no sleep happens) and the new `last_api_call`, which the
code reads from the clock after the sleep. -/
def wait_for_rate_limit (lastApiCall currentTime : ℚ) : ℚ × ℚ :=
  let timeSinceLastCall := currentTime - lastApiCall
  let sleep := if timeSinceLastCall < min_delay then min_delay - timeSinceLastCall else 0
  (sleep, currentTime + sleep)

/-- Result of one attempt of the function wrapped by `_retry_api_call`: a
returned value, or a raised exception carrying its message string. -/
inductive Outcome (α : Type) where
  | ok (v : α)
  | err (msg : String)
deriving DecidableEq

/-- Error classification of line 50: `"429" in error_msg or "quota" in error_msg.lower()`. -/
def isQuotaErr (msg : String) : Bool :=
  strContains msg "429" || strContains (strToLower msg) "quota"

/-- Error classification of line 60: `"503" in error_msg`. -/
def is503Err (msg : String) : Bool := strContains msg "503"

/-- Embedding of the `for attempt in range(max_retries)` loop of
`PPTGenerator._retry_api_call` (lines 42–73).  `f attempt` is the outcome of
the wrapped function on the given attempt; the result pairs the returned value
(`none` for the Python `return None` paths) with the list of backoff durations
passed to `time.sleep` inside the loop (lines 54 and 64; the per-attempt
`_wait_for_rate_limit` sleep is modelled separately above). -/
def retryLoop {α : Type} (f : Nat → Outcome α) (maxRetries : Nat) :
    List Nat → Option α × List Nat
  | [] => (none, [])
  | attempt :: rest =>
    match f attempt with
    | .ok v => (some v, [])
    | .err msg =>
      if isQuotaErr msg then
        if attempt < maxRetries - 1 then
          let r := retryLoop f maxRetries rest
          (r.1, 45 * (attempt + 1) :: r.2)
        else (none, [])
      else if is503Err msg then
        if attempt < maxRetries - 1 then
          let r := retryLoop f maxRetries rest
          (r.1, 5 * (attempt + 1) :: r.2)
        else (none, [])
      else (none, [])

/-- Embedding of `PPTGenerator._retry_api_call` (lines 42–73): run the loop over
`range(max_retries)`.  The default in the source is `max_retries=3`. -/
def retry_api_call {α : Type} (f : Nat → Outcome α) (maxRetries : Nat) :
    Option α × List Nat :=
  retryLoop f maxRetries (List.range maxRetries)

/-! Outline data model (spec section 3; `ppt.py` lines 75–123).  A slide record
is a JSON object whose `title` / `content` / `slide_type` keys may each be
absent (`dict.get` with defaults, lines 294–296); `content` is a string or a
list of strings. -/

/-- Content payload of a slide record: a JSON string or a JSON list of strings. -/
inductive ContentVal where
  | str (s : String)
  | list (xs : List String)
deriving DecidableEq

/-- One record of the outline returned by the model (or of the fallback), with
each expected key possibly absent. -/
structure SlideRecord where
  title : Option String
  content : Option ContentVal
  slide_type : Option String
deriving DecidableEq

/-- Embedding of `PPTGenerator._get_fallback_content` (lines 115–123). -/
def get_fallback_content (topic : String) : List SlideRecord :=
  [⟨some topic, some (.str "Introduction and Overview"), some "title"⟩,
   ⟨some "Background", some (.str "Key background information"), some "content"⟩,
   ⟨some "Main Points", some (.str "Important details and examples"), some "content"⟩,
   ⟨some "Analysis", some (.str "Critical analysis and insights"), some "content"⟩,
   ⟨some "Future Outlook", some (.str "Trends and predictions"), some "content"⟩,
   ⟨some "Conclusion", some (.str "Summary and takeaways"), some "conclusion"⟩]

/-- Embedding of the code-fence stripping in `generate_content_outlines`
(lines 100–103): `content.split("```json")[1].split("```")[0].strip()` when the
response carries a ```json fence, `content.split("```")[1].strip()` when it
carries a bare fence. -/
def stripFences (content : String) : String :=
  if strContains content "```json" then
    pyStrip ((pySplit ((pySplit content "```json").getD 1 "") "```").getD 0 "")
  else if strContains content "```" then
    pyStrip ((pySplit content "```").getD 1 "")
  else content

/-- Embedding of `PPTGenerator.generate_content_outlines` (lines 75–113).
`apiResult` is what `_retry_api_call(_generate)` produced (`none` when all
retries failed, which makes the code raise and land in the `except` branch);
`parse` models `json.loads` on the stripped text, `none` when it raises.  Every
failure path returns the hardcoded fallback outline. -/
def generate_content_outlines (parse : String → Option (List SlideRecord))
    (topic : String) (apiResult : Option String) : List SlideRecord :=
  match apiResult with
  | none => get_fallback_content topic
  | some raw =>
    let content := stripFences raw
    if strStartsWith content "[" then
      match parse content with
      | some records => records
      | none => get_fallback_content topic
    else get_fallback_content topic

/-! Image download (`PPTGenerator.download_images`, lines 164–188). -/

/-- Outcome of the Pexels interaction inside `download_images`: any raised
exception in the `try` block (HTTP error on either GET, `raise_for_status`,
file write), or the photo list of the search response. -/
inductive PexelsResult where
  | httpErr (msg : String)
  | photosFound (photos : List String)
deriving DecidableEq

/-- Embedding of `PPTGenerator.download_images` (lines 164–188): an empty photo
list raises `ValueError('No photo found')`, every exception is caught and
yields `None`; otherwise the file is written and `save_path` returned. -/
def download_images (resp : PexelsResult) (savePath : String) : Option String :=
  match resp with
  | .httpErr _ => none
  | .photosFound photos => if photos.isEmpty then none else some savePath

/-! Slide layout (`create_title_slide`, `create_content_slide`,
`create_image_slide`, `generate_ppt`; lines 190–316). -/

/-- Python `'\n'.join(str(item) for item in content) if isinstance(content, list)
else str(content)` (lines 221–224 and 259–262 and 306). -/
def contentToStr : ContentVal → String
  | .str s => s
  | .list xs => String.intercalate "\n" xs

/-- Shapes of a content slide as built by `create_content_slide` (lines
208–242): layout index 1, title text, body text, and the picture added to the
slide if any. -/
structure ContentSlideShapes where
  title : String
  body : String
  picture : Option String
deriving DecidableEq

/-- Embedding of `PPTGenerator.create_content_slide` (lines 208–242).
`imageOutcome` models the `try` block of lines 231–240: the path of the picture
successfully added, or `none` when the description lookup, `download_images`,
the `os.path.exists` check or `add_picture` failed or raised (the exception is
caught and only warned about). -/
def create_content_slide (title : String) (content : ContentVal)
    (includeImage : Bool) (imageOutcome : Option String) : ContentSlideShapes :=
  ⟨title, contentToStr content, if includeImage then imageOutcome else none⟩

/-- Per-record defaulted title: `slide_data.get('title', f"Slide {i+1}")` (line 294). -/
def effTitle (r : SlideRecord) (i : Nat) : String :=
  r.title.getD ("Slide " ++ toString (i + 1))

/-- Per-record defaulted content: `slide_data.get('content', "")` (line 295). -/
def effContent (r : SlideRecord) : ContentVal := r.content.getD (.str "")

/-- Per-record defaulted type: `slide_data.get('slide_type', 'content')` (line 296). -/
def effType (r : SlideRecord) : String := r.slide_type.getD "content"

/-- One slide-layout call made by the loop of `generate_ppt`: which layout
routine is invoked and with which arguments. -/
inductive LayoutCall where
  | titleSlide (title subtitle : String)
  | contentSlide (title : String) (content : ContentVal) (includeImage : Bool)
  | imageSlide (title : String) (content : ContentVal) (imageQuery : String)
deriving DecidableEq

/-- Embedding of one iteration of the `generate_ppt` loop (lines 293–310).
`imgDesc` models `generative_image_description` (the Gemini call / keyword
cache used to build the image query of an image slide). -/
def slideCall (imgDesc : String → String) (author : String) (i : Nat)
    (r : SlideRecord) : LayoutCall :=
  if i == 0 || effType r == "title" then
    .titleSlide (effTitle r i) ("Created by " ++ author)
  else if effType r == "content" then
    .contentSlide (effTitle r i) (effContent r) true
  else if effType r == "image" then
    .imageSlide (effTitle r i) (effContent r) (imgDesc (contentToStr (effContent r)))
  else
    .contentSlide (effTitle r i) (effContent r) false

/-- The `for i, slide_data in enumerate(content_outlines)` loop of
`generate_ppt`, carrying the running index. -/
def generatePptFrom (imgDesc : String → String) (author : String) :
    Nat → List SlideRecord → List LayoutCall
  | _, [] => []
  | i, r :: rs => slideCall imgDesc author i r :: generatePptFrom imgDesc author (i + 1) rs

/-- Embedding of `PPTGenerator.generate_ppt` (lines 282–316) restricted to its
observable layout behaviour: the sequence of slide-layout calls made for a
given outline. -/
def generate_ppt (imgDesc : String → String) (author : String)
    (outlines : List SlideRecord) : List LayoutCall :=
  generatePptFrom imgDesc author 0 outlines

/-- Title argument of a layout call. -/
def callTitle : LayoutCall → String
  | .titleSlide t _ => t
  | .contentSlide t _ _ => t
  | .imageSlide t _ _ => t

/-- The four layout routines of the per-slide switch: title, content (content
slide with image), image, and the fallback branch (content slide without
image). -/
inductive CallKind where
  | titleK
  | contentK
  | imageK
  | fallbackK
deriving DecidableEq

/-- Routine actually invoked by a layout call. -/
def callKind : LayoutCall → CallKind
  | .titleSlide _ _ => .titleK
  | .contentSlide _ _ true => .contentK
  | .contentSlide _ _ false => .fallbackK
  | .imageSlide _ _ _ => .imageK

/-- Spec-side routine selection: the layout routine that the slide_type tag
alone selects (title / content / image / fallback), written from the spec's
words for comparison with the code's dispatch. -/
def specRoutineForTag (tag : String) : CallKind :=
  if tag == "title" then .titleK
  else if tag == "content" then .contentK
  else if tag == "image" then .imageK
  else .fallbackK

/-! The Streamlit form and its validation (`main`, lines 320–458). -/

/-- Values of the form fields read by `main`. -/
structure FormInputs where
  geminiApiKey : String
  pexelApiKey : String
  authorName : String
  topic : String
  numSlides : Nat
  outputFilename : String
  includeImages : Bool
deriving DecidableEq

/-- Arguments `main` passes to `generator.generate_ppt` (lines 438–443). -/
structure GenerateArgs where
  topic : String
  num_slides : Nat
  output_file : String
  author : String
deriving DecidableEq

/-- What pressing the Generate button does: either an `st.error` validation
message and an early `return`, or construction of `PPTGenerator` followed by the
`generate_ppt` call with the given arguments. -/
inductive MainOutcome where
  | validationError (msg : String)
  | proceed (args : GenerateArgs)
deriving DecidableEq

/-- The argument record of the `generator.generate_ppt(...)` call (lines
438–443): topic, num_slides, output_file and author — and nothing else. -/
def mainGenerateArgs (f : FormInputs) : GenerateArgs :=
  ⟨f.topic, f.numSlides, f.outputFilename, f.authorName⟩

/-- Embedding of the validation sequence behind the Generate button (lines
418–443): empty topic, then missing Gemini key, then missing Pexels key each
abort with an error before any generator is constructed. -/
def mainSubmit (f : FormInputs) : MainOutcome :=
  if f.topic == "" then .validationError "Please enter a presentation topic!"
  else if f.geminiApiKey == "" then
    .validationError "Please provide your Gemini API key in the sidebar!"
  else if f.pexelApiKey == "" then
    .validationError "Please provide your Pexels API key in the sidebar!"
  else .proceed (mainGenerateArgs f)

/-! Helper lemmas about the `generate_ppt` loop. -/

/-- The loop makes one layout call per record. -/
theorem generatePptFrom_length (imgDesc : String → String) (author : String)
    (k : Nat) (l : List SlideRecord) :
    (generatePptFrom imgDesc author k l).length = l.length := by
  induction l generalizing k with
  | nil => rfl
  | cons r rs ih => simp [generatePptFrom, ih]

/-- The call at position `i` of the loop started at counter `k` is the one for
record `i` at loop counter `k + i`. -/
theorem generatePptFrom_get? (imgDesc : String → String) (author : String)
    (k : Nat) (l : List SlideRecord) (i : Nat) :
    (generatePptFrom imgDesc author k l)[i]? =
      l[i]?.map (fun r => slideCall imgDesc author (k + i) r) := by
  induction l generalizing k i with
  | nil => simp [generatePptFrom]
  | cons r rs ih =>
    cases i with
    | zero => simp [generatePptFrom]
    | succ j =>
      have hk : k + 1 + j = k + (j + 1) := by omega
      simp [generatePptFrom, ih (k + 1) j, hk]

/-- Every branch of the per-slide switch passes the record's defaulted title on
to the layout routine it invokes. -/
theorem callTitle_slideCall (imgDesc : String → String) (author : String)
    (i : Nat) (r : SlideRecord) :
    callTitle (slideCall imgDesc author i r) = effTitle r i := by
  unfold slideCall
  repeat' split
  all_goals rfl

/-- The routine invoked for a record is the one its slide_type tag selects,
except at index 0, where it is always the title routine. -/
theorem callKind_slideCall (imgDesc : String → String) (author : String)
    (i : Nat) (r : SlideRecord) :
    callKind (slideCall imgDesc author i r) =
      if i = 0 then CallKind.titleK else specRoutineForTag (effType r) := by
  rcases Nat.eq_zero_or_pos i with hi | hi
  · subst hi
    simp [slideCall, callKind]
  · have hne : i ≠ 0 := Nat.pos_iff_ne_zero.mp hi
    have hi0 : (i == 0) = false := by simp [hne]
    cases h1 : effType r == "title" with
    | true => simp [slideCall, callKind, specRoutineForTag, hi0, h1, hne]
    | false =>
      cases h2 : effType r == "content" with
      | true => simp [slideCall, callKind, specRoutineForTag, hi0, h1, h2, hne]
      | false =>
        cases h3 : effType r == "image" with
        | true => simp [slideCall, callKind, specRoutineForTag, hi0, h1, h2, h3, hne]
        | false => simp [slideCall, callKind, specRoutineForTag, hi0, h1, h2, h3, hne]

/-- C9: for every outline, the record at index 0 is laid out as a title slide
with subtitle "Created by {author}", whatever its slide_type tag says; the tag
of the first record never influences which layout routine is used. -/
theorem C9_first_record_always_title_slide (imgDesc : String → String)
    (author : String) (r : SlideRecord) (rest : List SlideRecord) :
    (generate_ppt imgDesc author (r :: rest)).head? =
      some (LayoutCall.titleSlide (effTitle r 0) ("Created by " ++ author)) := by
  simp [generate_ppt, generatePptFrom, slideCall]

/-- C10: generate_ppt is total over records missing keys: the loop still makes
one call per record, a missing title defaults to "Slide {i+1}", a missing
content to the empty string, a missing slide_type to 'content', and a record
with none of the keys (at a non-zero index) is laid out as a content slide with
exactly those defaults. -/
theorem C10_missing_keys_default (imgDesc : String → String) (author : String)
    (outlines : List SlideRecord) (i : Nat) :
    (generate_ppt imgDesc author outlines).length = outlines.length ∧
    effTitle ⟨none, none, none⟩ i = "Slide " ++ toString (i + 1) ∧
    effContent ⟨none, none, none⟩ = ContentVal.str "" ∧
    effType ⟨none, none, none⟩ = "content" ∧
    slideCall imgDesc author (i + 1) ⟨none, none, none⟩ =
      LayoutCall.contentSlide ("Slide " ++ toString (i + 2)) (ContentVal.str "") true := by
  refine ⟨generatePptFrom_length imgDesc author 0 outlines, rfl, rfl, rfl, ?_⟩
  simp [slideCall, effTitle, effContent, effType]

/-- C5: when the image fetch for a content slide fails, the slide keeps its
title and body text exactly as in a successful run and only the picture is
omitted; both failing paths of download_images return `none`. -/
theorem C5_image_failure_keeps_text (title : String) (content : ContentVal)
    (p savePath msg : String) :
    (create_content_slide title content true none).title = title ∧
    (create_content_slide title content true none).body = contentToStr content ∧
    (create_content_slide title content true none).picture = none ∧
    (create_content_slide title content true none).title =
      (create_content_slide title content true (some p)).title ∧
    (create_content_slide title content true none).body =
      (create_content_slide title content true (some p)).body ∧
    download_images (.httpErr msg) savePath = none ∧
    download_images (.photosFound []) savePath = none :=
  ⟨rfl, rfl, rfl, rfl, rfl, rfl, rfl⟩

/-- C6: an empty topic or a missing API key makes the Generate button show a
validation error and return before any generator is constructed. -/
theorem C6_validation_blocks_generation (f : FormInputs)
    (h : f.topic = "" ∨ f.geminiApiKey = "" ∨ f.pexelApiKey = "") :
    (∃ msg, mainSubmit f = MainOutcome.validationError msg) ∧
    ∀ args, mainSubmit f ≠ MainOutcome.proceed args := by
  have hv : ∃ msg, mainSubmit f = MainOutcome.validationError msg := by
    unfold mainSubmit
    by_cases h1 : (f.topic == "") = true
    · exact ⟨"Please enter a presentation topic!", by simp [h1]⟩
    · by_cases h2 : (f.geminiApiKey == "") = true
      · exact ⟨"Please provide your Gemini API key in the sidebar!", by simp [h1, h2]⟩
      · by_cases h3 : (f.pexelApiKey == "") = true
        · exact ⟨"Please provide your Pexels API key in the sidebar!", by simp [h1, h2, h3]⟩
        · exfalso
          rcases h with h | h | h
          · exact h1 (by simp [h])
          · exact h2 (by simp [h])
          · exact h3 (by simp [h])
  obtain ⟨msg, hm⟩ := hv
  refine ⟨⟨msg, hm⟩, fun args hc => ?_⟩
  rw [hm] at hc
  exact MainOutcome.noConfusion hc

/-- C6 witness: a concrete submission with an empty topic is blocked. -/
theorem C6_validation_blocks_generation_witness :
    (∃ msg, mainSubmit ⟨"gk", "pk", "Pranab", "", 6, "out.pptx", true⟩ =
        MainOutcome.validationError msg) ∧
    ∀ args, mainSubmit ⟨"gk", "pk", "Pranab", "", 6, "out.pptx", true⟩ ≠
        MainOutcome.proceed args :=
  C6_validation_blocks_generation ⟨"gk", "pk", "Pranab", "", 6, "out.pptx", true⟩
    (Or.inl rfl)

/-- C1 counterexample: a well-formed one-record outline whose record is tagged
slide_type "content" is laid out by the title routine, not by the routine its
tag selects — generate_ppt ignores the tag at index 0. -/
theorem C1_counterexample :
    generate_ppt (fun _ => "q") "Pranab"
        [⟨some "A", some (ContentVal.str "x"), some "content"⟩] =
      [LayoutCall.titleSlide "A" "Created by Pranab"] ∧
    callKind (LayoutCall.titleSlide "A" "Created by Pranab") ≠
      specRoutineForTag (effType ⟨some "A", some (ContentVal.str "x"), some "content"⟩) := by
  exact ⟨rfl, by decide⟩

/-- C1 (amended): for every outline of N records, generate_ppt makes exactly N
layout calls, one per record in order, each with the record's (defaulted)
title; the layout routine is the one selected by the record's slide_type tag
(title / content / image / fallback), except that the record at index 0 is
always laid out by the title routine. -/
theorem C1_per_record_layout_calls (imgDesc : String → String) (author : String)
    (outlines : List SlideRecord) :
    (generate_ppt imgDesc author outlines).length = outlines.length ∧
    ∀ i r, outlines[i]? = some r →
      ∃ c, (generate_ppt imgDesc author outlines)[i]? = some c ∧
        callTitle c = effTitle r i ∧
        callKind c = (if i = 0 then CallKind.titleK else specRoutineForTag (effType r)) := by
  refine ⟨generatePptFrom_length imgDesc author 0 outlines, fun i r hr => ?_⟩
  refine ⟨slideCall imgDesc author i r, ?_, callTitle_slideCall imgDesc author i r,
    callKind_slideCall imgDesc author i r⟩
  have h := generatePptFrom_get? imgDesc author 0 outlines i
  rw [Nat.zero_add] at h
  rw [generate_ppt, h, hr]
  rfl

/-- C1 witness: the amended theorem evaluated on a concrete two-record outline,
at index 1 (an image-tagged record). -/
theorem C1_per_record_layout_calls_witness :
    (generate_ppt (fun _ => "q") "A"
      [⟨some "T1", some (ContentVal.str "c1"), some "title"⟩,
       ⟨some "T2", some (ContentVal.str "c2"), some "image"⟩]).length = 2 ∧
    ∃ c, (generate_ppt (fun _ => "q") "A"
        [⟨some "T1", some (ContentVal.str "c1"), some "title"⟩,
         ⟨some "T2", some (ContentVal.str "c2"), some "image"⟩])[1]? = some c ∧
      callTitle c = effTitle ⟨some "T2", some (ContentVal.str "c2"), some "image"⟩ 1 ∧
      callKind c = (if 1 = 0 then CallKind.titleK
        else specRoutineForTag (effType ⟨some "T2", some (ContentVal.str "c2"), some "image"⟩)) := by
  have h := C1_per_record_layout_calls (fun _ => "q") "A"
    [⟨some "T1", some (ContentVal.str "c1"), some "title"⟩,
     ⟨some "T2", some (ContentVal.str "c2"), some "image"⟩]
  exact ⟨h.1, h.2 1 ⟨some "T2", some (ContentVal.str "c2"), some "image"⟩ rfl⟩

/-- C2: whenever the model call failed after retries (`None`) or the
fence-stripped response does not parse as a JSON array (it does not start with
a bracket, or `json.loads` raises), generate_content_outlines returns the
hardcoded fallback outline: exactly 6 records — topic-titled title record,
four content records, a conclusion record. -/
theorem C2_fallback_on_malformed (parse : String → Option (List SlideRecord))
    (topic : String) (apiResult : Option String)
    (hmal : apiResult = none ∨
      ∃ raw, apiResult = some raw ∧
        (strStartsWith (stripFences raw) "[" = false ∨ parse (stripFences raw) = none)) :
    generate_content_outlines parse topic apiResult = get_fallback_content topic ∧
    (get_fallback_content topic).length = 6 ∧
    (get_fallback_content topic).map SlideRecord.title =
      [some topic, some "Background", some "Main Points", some "Analysis",
       some "Future Outlook", some "Conclusion"] ∧
    (get_fallback_content topic).map SlideRecord.slide_type =
      [some "title", some "content", some "content", some "content", some "content",
       some "conclusion"] := by
  refine ⟨?_, rfl, rfl, rfl⟩
  rcases hmal with h | ⟨raw, hr, hcase⟩
  · subst h; rfl
  · subst hr
    rcases hcase with hs | hp
    · simp [generate_content_outlines, hs]
    · by_cases hs : strStartsWith (stripFences raw) "[" = true
      · simp [generate_content_outlines, hs, hp]
      · simp only [Bool.not_eq_true] at hs
        simp [generate_content_outlines, hs]

/-- C2 witness: a non-JSON model response yields the fallback for topic "AI". -/
theorem C2_fallback_on_malformed_witness :
    generate_content_outlines (fun _ => none) "AI" (some "I cannot answer that") =
      get_fallback_content "AI" ∧
    (get_fallback_content "AI").length = 6 ∧
    (get_fallback_content "AI").map SlideRecord.title =
      [some "AI", some "Background", some "Main Points", some "Analysis",
       some "Future Outlook", some "Conclusion"] ∧
    (get_fallback_content "AI").map SlideRecord.slide_type =
      [some "title", some "content", some "content", some "content", some "content",
       some "conclusion"] :=
  C2_fallback_on_malformed (fun _ => none) "AI" (some "I cannot answer that")
    (Or.inr ⟨"I cannot answer that", rfl, Or.inl (by decide)⟩)

/-- C3: quota failures (429/quota) on attempts 1 and 2 followed by success on
attempt 3 make _retry_api_call return the successful result after backoff
sleeps of 45 s then 90 s; with 503 errors the base is 5 s (sleeps 5 s then
10 s). -/
theorem C3_backoff_then_success {α : Type} (f g : Nat → Outcome α) (v w : α)
    (m0 m1 n0 n1 : String)
    (hf0 : f 0 = .err m0) (hf1 : f 1 = .err m1) (hf2 : f 2 = .ok v)
    (hq0 : isQuotaErr m0 = true) (hq1 : isQuotaErr m1 = true)
    (hg0 : g 0 = .err n0) (hg1 : g 1 = .err n1) (hg2 : g 2 = .ok w)
    (hn0q : isQuotaErr n0 = false) (hn0 : is503Err n0 = true)
    (hn1q : isQuotaErr n1 = false) (hn1 : is503Err n1 = true) :
    retry_api_call f 3 = (some v, [45, 90]) ∧
    retry_api_call g 3 = (some w, [5, 10]) := by
  have hr : List.range 3 = [0, 1, 2] := rfl
  constructor
  · simp [retry_api_call, hr, retryLoop, hf0, hf1, hf2, hq0, hq1]
  · simp [retry_api_call, hr, retryLoop, hg0, hg1, hg2, hn0q, hn0, hn1q, hn1]

/-- C3 witness: concrete error messages exercising both backoff schedules. -/
theorem C3_backoff_then_success_witness :
    retry_api_call (fun i => if i == 0 then Outcome.err "429 RESOURCE_EXHAUSTED"
      else if i == 1 then Outcome.err "You exceeded your quota"
      else Outcome.ok 7) 3 = (some 7, [45, 90]) ∧
    retry_api_call (fun i => if i == 0 then Outcome.err "503 Service Unavailable"
      else if i == 1 then Outcome.err "503 again"
      else Outcome.ok 8) 3 = (some 8, [5, 10]) :=
  C3_backoff_then_success
    (fun i => if i == 0 then Outcome.err "429 RESOURCE_EXHAUSTED"
      else if i == 1 then Outcome.err "You exceeded your quota"
      else Outcome.ok 7)
    (fun i => if i == 0 then Outcome.err "503 Service Unavailable"
      else if i == 1 then Outcome.err "503 again"
      else Outcome.ok 8)
    7 8 "429 RESOURCE_EXHAUSTED" "You exceeded your quota"
    "503 Service Unavailable" "503 again"
    rfl rfl rfl (by decide) (by decide) rfl rfl rfl
    (by decide) (by decide) (by decide) (by decide)

/-- Running the retry loop over attempts that all raise yields no value. -/
theorem retryLoop_all_err_fst_none {α : Type} (f : Nat → Outcome α) (mr : Nat)
    (he : ∀ i, ∃ m, f i = .err m) (l : List Nat) :
    (retryLoop f mr l).1 = none := by
  induction l with
  | nil => rfl
  | cons a rest ih =>
    obtain ⟨m, hm⟩ := he a
    by_cases hq : isQuotaErr m = true
    · by_cases ha : a < mr - 1 <;> simp [retryLoop, hm, hq, ha, ih]
    · by_cases h5 : is503Err m = true
      · by_cases ha : a < mr - 1 <;> simp [retryLoop, hm, hq, h5, ha, ih]
      · simp [retryLoop, hm, hq, h5]

/-- C4: _retry_api_call never propagates an exception: when every attempt
raises, the value returned is the null sentinel, and an error that is neither
quota nor 503 on the first attempt aborts immediately — null result, no
backoff sleep. -/
theorem C4_never_raises {α : Type} (f : Nat → Outcome α) (maxRetries : Nat) :
    ((∀ i, ∃ m, f i = Outcome.err m) → (retry_api_call f maxRetries).1 = none) ∧
    (∀ m, f 0 = Outcome.err m → isQuotaErr m = false → is503Err m = false →
      retry_api_call f maxRetries = (none, [])) := by
  constructor
  · intro he
    exact retryLoop_all_err_fst_none f maxRetries he _
  · intro m h0 hq h5
    cases maxRetries with
    | zero => rfl
    | succ n =>
      rw [retry_api_call, List.range_succ_eq_map]
      simp [retryLoop, h0, hq, h5]

/-- C4 witness: exhausted quota retries return none; an unrelated error returns
none at once with no backoff sleeps. -/
theorem C4_never_raises_witness :
    (retry_api_call (fun _ => (Outcome.err "429" : Outcome Nat)) 3).1 = none ∧
    retry_api_call (fun _ => (Outcome.err "boom" : Outcome Nat)) 3 = (none, []) :=
  ⟨(C4_never_raises (fun _ => (Outcome.err "429" : Outcome Nat)) 3).1
      (fun _ => ⟨"429", rfl⟩),
   (C4_never_raises (fun _ => (Outcome.err "boom" : Outcome Nat)) 3).2
      "boom" rfl (by decide) (by decide)⟩

/-- C7 counterexample: with the clock 100 seconds past the stored last call,
_wait_for_rate_limit sleeps 0 seconds — no fixed 30-second sleep precedes the
call. -/
theorem C7_counterexample :
    (wait_for_rate_limit 0 100).1 = 0 ∧ (wait_for_rate_limit 0 100).1 ≠ 30 := by
  constructor <;> norm_num [wait_for_rate_limit, min_delay]

/-- C7 (amended): the pre-call sleep is max 0 (30 − elapsed): the code sleeps
only the remainder of the 30-second minimum spacing, so consecutive API calls
are at least 30 seconds apart, and no sleep happens when 30 seconds have
already elapsed since the previous call. -/
theorem C7_min_call_spacing (lastCall currentTime : ℚ) :
    (wait_for_rate_limit lastCall currentTime).1 =
      max 0 (min_delay - (currentTime - lastCall)) ∧
    min_delay ≤ (wait_for_rate_limit lastCall currentTime).2 - lastCall := by
  unfold wait_for_rate_limit min_delay
  by_cases hlt : currentTime - lastCall < 30
  · simp only [min_delay, if_pos hlt]
    constructor
    · rw [max_eq_right (by linarith)]
    · linarith
  · simp only [min_delay, if_neg hlt]
    constructor
    · rw [max_eq_left (by linarith)]
    · linarith

/-- C8: the include-images toggle is not an effective input: main passes only
topic, num_slides, output_file and author to generate_ppt, so two submissions
differing only in the toggle behave identically, and the loop hard-codes
include_image=True for every content-tagged record at a non-zero index. -/
theorem C8_toggle_has_no_effect (g p a t o : String) (n : Nat) (b1 b2 : Bool) :
    mainSubmit ⟨g, p, a, t, n, o, b1⟩ = mainSubmit ⟨g, p, a, t, n, o, b2⟩ ∧
    mainGenerateArgs ⟨g, p, a, t, n, o, b1⟩ = mainGenerateArgs ⟨g, p, a, t, n, o, b2⟩ ∧
    ∀ (imgDesc : String → String) (author : String) (i : Nat)
      (tl : Option String) (c : Option ContentVal),
      slideCall imgDesc author (i + 1) ⟨tl, c, some "content"⟩ =
        LayoutCall.contentSlide (effTitle ⟨tl, c, some "content"⟩ (i + 1))
          (effContent ⟨tl, c, some "content"⟩) true := by
  refine ⟨rfl, rfl, fun imgDesc author i tl c => ?_⟩
  simp [slideCall, effType]

end PPTGen
